import Mathlib

/-!
# Verification of the stripe-aws-integration handlers

A shallow embedding, in Lean 4, of the serverless handlers of the
stripe-aws-integration repository:

* the Subscription Reconciler (`src/sync/sync-stripe-data.ts`): resolves a
  directory record by its billing-customer id, lists customer
  subscriptions from the billing provider, normalizes the first one into a
  snapshot, and persists it with a full-item put;
* Webhook Ingestion (`webhook.ts`): verifies a provider event, filters it
  against an allow-list, and fire-and-forget dispatches a payload to the
  Reconciler;
* the Post-checkout Sync Trigger (`success-stripe-sync.ts`, two variants):
  synchronously invokes the Reconciler for the authenticated user;
* Checkout Initiation (`create-checkout.ts`): ensures a billing-provider
  customer exists for the user and opens a checkout session.

External collaborators (DynamoDB, the Stripe API, Lambda invocation) are
modelled as explicit state: the customer table is a list of records keyed by
`userId`, a `PutCommand` replaces the whole item with the given attributes,
the provider is a function from customer id to a subscription listing that
may fail, and a JSON payload crossing the Lambda-invoke boundary is a list of
string key/value pairs read back by field name.
-/

namespace StripeAws

/-- The `card` object of an expanded Stripe payment method. -/
structure StripeCard where
  brand : String
  last4 : String
  deriving Repr, DecidableEq

/-- `subscription.default_payment_method` after `expand`: absent/null, a bare
string reference, or an expanded object whose `card` may itself be absent. -/
inductive DefaultPaymentMethod where
  | absent : DefaultPaymentMethod
  | ref : String → DefaultPaymentMethod
  | obj : Option StripeCard → DefaultPaymentMethod
  deriving Repr, DecidableEq

/-- One element of `subscription.items.data`, reduced to the field the
handler reads (`item.price.id`). -/
structure SubscriptionItem where
  priceId : String
  deriving Repr, DecidableEq

/-- A subscription as returned by `stripe.subscriptions.list`, reduced to the
fields the handler reads. -/
structure StripeSubscription where
  id : String
  status : String
  items : List SubscriptionItem
  current_period_start : Int
  current_period_end : Int
  cancel_at_period_end : Bool
  default_payment_method : DefaultPaymentMethod
  deriving Repr, DecidableEq

/-- The `paymentMethod` component of the normalized snapshot
(`{ brand: string | null; last4: string | null }`). -/
structure PaymentMethodInfo where
  brand : Option String
  last4 : Option String
  deriving Repr, DecidableEq

/-- `StripeSubscriptionData` from sync-stripe-data.ts: the normalized
subscription snapshot. `status` is a provider lifecycle state or `"none"`. -/
structure StripeSubscriptionData where
  subscriptionId : Option String
  status : String
  priceId : Option String
  currentPeriodEnd : Option Int
  currentPeriodStart : Option Int
  cancelAtPeriodEnd : Bool
  paymentMethod : Option PaymentMethodInfo
  deriving Repr, DecidableEq

/-- `LambdaResponse` from sync-stripe-data.ts (lines 35-39): the response of the Reconciler has exactly the fields `success`, `data?` and `error?`. -/
structure LambdaResponse where
  success : Bool
  data : Option StripeSubscriptionData := none
  error : Option String := none
  deriving Repr, DecidableEq

/-- The caller-facing status code carried by a Reconciler response. The
source response type `LambdaResponse` (sync-stripe-data.ts lines 35-39) has
exactly the fields `success` / `data?` / `error?` and no status-code field,
so no status code can be extracted from any response. -/
def LambdaResponse.statusCode (_ : LambdaResponse) : Option Nat := none

/-- A Customer Record: a DynamoDB item of the customer table. Every
attribute other than the primary key `userId` may be absent or null
(collapsed to `none`). Checkout Initiation writes `userId`,
`stripeCustomerId`, `email`, `createdAt`; the put of the Reconciler writes
`userId`, `stripeCustomerId`, the snapshot fields and `updatedAt`. -/
structure CustomerRecord where
  userId : String
  stripeCustomerId : Option String := none
  email : Option String := none
  createdAt : Option String := none
  subscriptionId : Option String := none
  status : Option String := none
  priceId : Option String := none
  currentPeriodStart : Option Int := none
  currentPeriodEnd : Option Int := none
  cancelAtPeriodEnd : Option Bool := none
  paymentMethod : Option PaymentMethodInfo := none
  updatedAt : Option String := none
  deriving Repr, DecidableEq

/-- The customer table: a list of items keyed by `userId`. -/
abbrev CustomerTable := List CustomerRecord

/-- DynamoDB `PutCommand` on the customer table: the item with the same
primary key `userId` is replaced wholesale by the given item (attributes not
present in the new item are gone); if no item has that key, the new item is
added. -/
def putRecord : CustomerTable → CustomerRecord → CustomerTable
  | [], r => [r]
  | x :: xs, r => if x.userId = r.userId then r :: xs else x :: putRecord xs r

/-- DynamoDB `QueryCommand` on the `stripeCustomerId-index` GSI: all items
whose `stripeCustomerId` attribute equals the queried id. -/
def queryByStripeId (t : CustomerTable) (cid : String) : List CustomerRecord :=
  t.filter (fun r => r.stripeCustomerId = some cid)

/-- The JSON payload crossing the Lambda-invoke boundary, as key/value
pairs. -/
abbrev JsonPayload := List (String × String)

/-- The input event of the Reconciler as the handler sees it after JSON parsing.
The source declares `SyncStripeEvent = { stripeCustomerId: string }`; a field
missing from the payload parses to `none` (JS `undefined`). `userId` is
carried for payloads that supply one, but the handler never reads it. -/
structure SyncPayload where
  userId : Option String := none
  stripeCustomerId : Option String := none
  deriving Repr, DecidableEq

/-- JSON parsing of an invoke payload into the event the Reconciler receives: each
declared field is read by name; an absent key yields `undefined` (`none`). -/
def parseSyncPayload (p : JsonPayload) : SyncPayload :=
  { userId := (p.find? (fun kv => kv.1 = "userId")).map (·.2)
    stripeCustomerId :=
      (p.find? (fun kv => kv.1 = "stripeCustomerId")).map (·.2) }

/-- The environment of one Reconciler invocation: the response of the provider to
`stripe.subscriptions.list({customer, limit: 1, status: "all", expand:
["data.default_payment_method"]})` (which may throw), and the outcome of the
`PutCommand` (which may throw; the single-item put of DynamoDB is atomic). -/
structure SyncEnv where
  listSubscriptions : String → Except String (List StripeSubscription)
  putResult : Except String Unit

/-- The "none" snapshot built when zero subscriptions are returned
(sync-stripe-data.ts lines 86-94). -/
def noneSubData : StripeSubscriptionData :=
  { subscriptionId := none
    status := "none"
    priceId := none
    currentPeriodEnd := none
    currentPeriodStart := none
    cancelAtPeriodEnd := false
    paymentMethod := none }

/-- `paymentMethod && typeof paymentMethod !== "string" ? { brand:
paymentMethod.card?.brand ?? null, last4: paymentMethod.card?.last4 ?? null }
: null` (sync-stripe-data.ts lines 107-113). -/
def paymentMethodOf : DefaultPaymentMethod → Option PaymentMethodInfo
  | .obj card => some { brand := card.map (·.brand), last4 := card.map (·.last4) }
  | .ref _ => none
  | .absent => none

/-- Normalization of the listing the provider returned (sync-stripe-data.ts lines
82-115): zero subscriptions produce the "none" snapshot; otherwise the first
subscription is mapped, reading `subscription.items.data[0].price.id`
unguarded — with zero line items, `items.data[0]` is `undefined` and reading
`.price` throws a TypeError. -/
def computeSubData : List StripeSubscription → Except String StripeSubscriptionData
  | [] => .ok noneSubData
  | sub :: _ =>
    match sub.items.head? with
    | none => .error "TypeError: Cannot read properties of undefined (reading price)"
    | some item0 =>
      .ok { subscriptionId := some sub.id
            status := sub.status
            priceId := some item0.priceId
            currentPeriodEnd := some sub.current_period_end
            currentPeriodStart := some sub.current_period_start
            cancelAtPeriodEnd := sub.cancel_at_period_end
            paymentMethod := paymentMethodOf sub.default_payment_method }

/-- The item the `PutCommand` of the Reconciler writes (sync-stripe-data.ts lines
118-126): `{ userId, stripeCustomerId, ...subData, updatedAt }`. The put
carries no `email` or `createdAt` attribute. -/
def storedRecord (uid cid : String) (sd : StripeSubscriptionData)
    (now : String) : CustomerRecord :=
  { userId := uid
    stripeCustomerId := some cid
    email := none
    createdAt := none
    subscriptionId := sd.subscriptionId
    status := some sd.status
    priceId := sd.priceId
    currentPeriodStart := sd.currentPeriodStart
    currentPeriodEnd := sd.currentPeriodEnd
    cancelAtPeriodEnd := some sd.cancelAtPeriodEnd
    paymentMethod := sd.paymentMethod
    updatedAt := some now }

/-- The body of the `try` block of the Reconciler (sync-stripe-data.ts lines
44-132), with each thrown error as an `Except.error` carrying the message
the `catch` block would report. `!stripeCustomerId` and `!existingUserId`
are JS falsiness checks, so the empty string also fails them. -/
def syncHandlerRun (env : SyncEnv) (table : CustomerTable) (ev : SyncPayload)
    (now : String) : Except String (StripeSubscriptionData × CustomerTable) :=
  match ev.stripeCustomerId with
  | none => .error "Customer ID is required"
  | some cid =>
    if cid = "" then .error "Customer ID is required"
    else
      match (queryByStripeId table cid).head? with
      | none => .error "No user found for this Stripe customer"
      | some first =>
        if first.userId = "" then .error "No user found for this Stripe customer"
        else
          match env.listSubscriptions cid with
          | .error m => .error m
          | .ok subs =>
            match computeSubData subs with
            | .error m => .error m
            | .ok sd =>
              match env.putResult with
              | .error m => .error m
              | .ok _ => .ok (sd, putRecord table (storedRecord first.userId cid sd now))

/-- The Reconciler handler (sync-stripe-data.ts lines 41-144): any error
thrown inside the `try` is caught and returned as `{ success: false, error:
message }`; on success the normalized snapshot is returned and the table
holds the put item. A failed run leaves the table as it was. -/
def syncHandler (env : SyncEnv) (table : CustomerTable) (ev : SyncPayload)
    (now : String) : LambdaResponse × CustomerTable :=
  match syncHandlerRun env table ev now with
  | .error m => ({ success := false, error := some m }, table)
  | .ok (sd, t2) => ({ success := true, data := some sd }, t2)

/-! ## Webhook Ingestion (webhook.ts; duplicated as the second handler in
sync-stripe-data.ts with identical dispatch logic) -/

/-- The event-type allow-list (webhook.ts lines 10-29). -/
def allowedEvents : List String :=
  [ "checkout.session.completed"
  , "customer.subscription.created"
  , "customer.subscription.updated"
  , "customer.subscription.deleted"
  , "customer.subscription.paused"
  , "customer.subscription.resumed"
  , "customer.subscription.pending_update_applied"
  , "customer.subscription.pending_update_expired"
  , "customer.subscription.trial_will_end"
  , "invoice.paid"
  , "invoice.payment_failed"
  , "invoice.payment_action_required"
  , "invoice.upcoming"
  , "invoice.marked_uncollectible"
  , "invoice.payment_succeeded"
  , "payment_intent.succeeded"
  , "payment_intent.payment_failed"
  , "payment_intent.canceled" ]

/-- A verified provider event, reduced to what the webhook handler reads:
its `type` and `data.object.customer` when that is a string (`none` models a
missing or non-string customer field). -/
structure StripeEventIn where
  type : String
  customer : Option String
  deriving Repr, DecidableEq

/-- The observable outcome of one Webhook Ingestion invocation: the HTTP
status, the `received`/`processed`/`error` fields of the body, and the payload
dispatched to the Reconciler, if any. -/
structure WebhookOutcome where
  statusCode : Nat
  received : Option Bool := none
  processed : Option Bool := none
  errorMsg : Option String := none
  dispatched : Option JsonPayload := none
  deriving Repr, DecidableEq

/-- The webhook handler (webhook.ts lines 31-94). `verified` is the outcome
of `stripe.webhooks.constructEvent` on the raw body: a signature-verification
failure maps to 400. For an allowed event whose `customer` is a string, the
dispatched payload is `JSON.stringify({ customerId })` — the single key
`customerId` (webhook.ts lines 69-75); a non-string customer throws and maps
to 500. -/
def webhookHandler (signatureHeader : Option String)
    (verified : Except String StripeEventIn) : WebhookOutcome :=
  match signatureHeader with
  | none => { statusCode := 400, errorMsg := some "No signature provided" }
  | some _ =>
    match verified with
    | .error m => { statusCode := 400, errorMsg := some m }
    | .ok ev =>
      if allowedEvents.contains ev.type then
        match ev.customer with
        | none =>
          { statusCode := 500, errorMsg := some "Invalid customer ID in webhook" }
        | some cid =>
          { statusCode := 200, received := some true
            dispatched := some [("customerId", cid)] }
      else
        { statusCode := 200, received := some true, processed := some false }

/-! ## Post-checkout Sync Trigger (two variants) -/

/-- The authenticated identity supplied by the Cognito authorizer
(`event.requestContext.authorizer?.claims`). -/
structure Claims where
  sub : String
  email : String
  deriving Repr, DecidableEq

/-- The observable outcome of one Post-checkout Sync Trigger invocation: its
HTTP status, the relayed Reconciler response when one was obtained, its own
error body otherwise, and the payload it sent to the Reconciler. -/
structure SuccessSyncOutcome where
  statusCode : Nat
  body : Option LambdaResponse := none
  errorMsg : Option String := none
  invokedPayload : Option JsonPayload := none
  deriving Repr, DecidableEq

/-- Variant A, `src/success/success-stripe-sync.ts`: reads `user.sub` and
invokes the Reconciler with payload `{ stripeCustomerId: user.sub }` — the
Cognito user id itself, with no directory lookup (despite its comment "Get
stripeCustomerId from DynamoDB using userId") — then returns 200 with the
parsed Reconciler response as its body. With no claims object, `user.sub`
throws and the catch returns 500. -/
def successSyncA (env : SyncEnv) (table : CustomerTable)
    (claims : Option Claims) (now : String) :
    SuccessSyncOutcome × CustomerTable :=
  match claims with
  | none =>
    ({ statusCode := 500, errorMsg := some "Failed to sync stripe data" }, table)
  | some user =>
    let payload : JsonPayload := [("stripeCustomerId", user.sub)]
    let r := syncHandler env table (parseSyncPayload payload) now
    ({ statusCode := 200, body := some r.1, invokedPayload := some payload }, r.2)

/-- Variant B (the newer success handler): checks `user?.sub` (401 if
falsy), fetches the record by `userId` with a `GetCommand`, returns 404 if
`Item?.stripeCustomerId` is falsy, then synchronously invokes the Reconciler
with `{ stripeCustomerId: Item.stripeCustomerId }` and returns 200 with the
parsed Reconciler response as its body — whatever that response says. -/
def successSyncB (env : SyncEnv) (table : CustomerTable)
    (claims : Option Claims) (now : String) :
    SuccessSyncOutcome × CustomerTable :=
  match claims with
  | none => ({ statusCode := 401, errorMsg := some "Unauthorized" }, table)
  | some user =>
    if user.sub = "" then
      ({ statusCode := 401, errorMsg := some "Unauthorized" }, table)
    else
      match (table.find? (fun x => x.userId == user.sub)).bind
          (·.stripeCustomerId) with
      | none =>
        ({ statusCode := 404, errorMsg := some "No stripe customer found" }, table)
      | some scid =>
        if scid = "" then
          ({ statusCode := 404, errorMsg := some "No stripe customer found" }, table)
        else
          let payload : JsonPayload := [("stripeCustomerId", scid)]
          let r := syncHandler env table (parseSyncPayload payload) now
          ({ statusCode := 200, body := some r.1, invokedPayload := some payload },
            r.2)

/-! ## Checkout Initiation (create-checkout.ts) -/

/-- The observable HTTP outcome of one Checkout Initiation invocation. -/
structure CheckoutOutcome where
  statusCode : Nat
  url : Option String := none
  errorMsg : Option String := none
  deriving Repr, DecidableEq

/-- The environment of Checkout Initiation: whether the directory
`GetCommand` throws (caught and treated as "no record"), the outcome of
`stripe.customers.create` for the n-th creation performed so far, the
outcome of the directory `PutCommand`, and the outcome of
`stripe.checkout.sessions.create` for a given customer id (`checkout.url` is
nullable). -/
structure CheckoutEnv where
  getFails : Bool
  createCustomer : Nat → Except String String
  putResult : Except String Unit
  createSession : String → Except String (Option String)

/-- The external state Checkout Initiation touches: the customer table, the
ids of billing-provider customers created so far, and the customer ids for
which checkout sessions were opened. -/
structure CheckoutState where
  table : CustomerTable
  createdCustomers : List String := []
  sessions : List String := []
  deriving Repr, DecidableEq

/-- Session creation and response (create-checkout.ts lines 92-117): a
session-creation failure reaches the outer catch (500); on success the
url of the session is returned with 200. -/
def checkoutFinish (env : CheckoutEnv) (st : CheckoutState) (cid : String) :
    CheckoutOutcome × CheckoutState :=
  match env.createSession cid with
  | .error _ =>
    ({ statusCode := 500, errorMsg := some "Failed to create checkout session" }, st)
  | .ok url =>
    ({ statusCode := 200, url := url },
      { st with sessions := st.sessions ++ [cid] })

/-- The no-stored-customer path (create-checkout.ts lines 57-90): create a
billing-provider customer (failure → 500 before any state change), then put
a fresh directory record `{ userId, stripeCustomerId, email, createdAt }`
(a put failure reaches the outer catch after the provider-side customer was
already created), then open the session. -/
def checkoutCreatePath (env : CheckoutEnv) (st : CheckoutState)
    (user : Claims) (now : String) : CheckoutOutcome × CheckoutState :=
  match env.createCustomer st.createdCustomers.length with
  | .error _ =>
    ({ statusCode := 500, errorMsg := some "Failed to create stripe customer" }, st)
  | .ok newId =>
    let st1 := { st with createdCustomers := st.createdCustomers ++ [newId] }
    match env.putResult with
    | .error _ =>
      ({ statusCode := 500, errorMsg := some "Failed to create checkout session" }, st1)
    | .ok _ =>
      let st2 := { st1 with
        table := putRecord st1.table
          { userId := user.sub
            stripeCustomerId := some newId
            email := some user.email
            createdAt := some now } }
      checkoutFinish env st2 newId

/-- The Checkout Initiation handler (create-checkout.ts lines 17-126):
401 without `user?.sub` and `user?.email`; look up the record by `userId`
(a throwing get is caught and leaves the id null); if `stripeCustomerId` is
falsy, take the creation path, else reuse the stored id and only open a new
session. -/
def checkoutHandler (env : CheckoutEnv) (st : CheckoutState)
    (claims : Option Claims) (now : String) : CheckoutOutcome × CheckoutState :=
  match claims with
  | none => ({ statusCode := 401, errorMsg := some "Unauthorized" }, st)
  | some user =>
    if user.sub = "" ∨ user.email = "" then
      ({ statusCode := 401, errorMsg := some "Unauthorized" }, st)
    else
      let scid : Option String :=
        if env.getFails then none
        else (st.table.find? (fun x => x.userId == user.sub)).bind
          (·.stripeCustomerId)
      match scid with
      | none => checkoutCreatePath env st user now
      | some c =>
        if c = "" then checkoutCreatePath env st user now
        else checkoutFinish env st c

/-! ## Store lemmas -/

/-- After a put, the item found under the key of the put item is exactly the put
item: the put replaces the keyed item wholesale. -/
theorem find?_putRecord (t : CustomerTable) (r : CustomerRecord) :
    (putRecord t r).find? (fun x => x.userId == r.userId) = some r := by
  induction t with
  | nil => simp [putRecord, List.find?]
  | cons x xs ih =>
    by_cases h : x.userId = r.userId
    · simp [putRecord, h, List.find?]
    · simp only [putRecord, if_neg h, List.find?]
      have hb : (x.userId == r.userId) = false := by
        simpa using h
      simp [hb, ih]

/-- Putting an item whose key is absent from the table appends it. -/
theorem putRecord_of_not_mem (t : CustomerTable) (r : CustomerRecord)
    (h : ∀ x ∈ t, x.userId ≠ r.userId) : putRecord t r = t ++ [r] := by
  induction t with
  | nil => simp [putRecord]
  | cons x xs ih =>
    have hx : x.userId ≠ r.userId := h x (by simp)
    simp [putRecord, hx, ih (fun y hy => h y (by simp [hy]))]

/-- If the reverse-index query matched exactly one record `r`, and the put
item keeps the key and billing-customer id of `r`, then after the put the query
matches exactly the put item. -/
theorem queryByStripeId_putRecord (t : CustomerTable) (r rec : CustomerRecord)
    (cid : String)
    (hq : queryByStripeId t cid = [r])
    (huniq : ∀ x ∈ t, x.userId = r.userId → x = r)
    (hrecu : rec.userId = r.userId)
    (hrecc : rec.stripeCustomerId = some cid) :
    queryByStripeId (putRecord t rec) cid = [rec] := by
  have hrmatch : r.stripeCustomerId = some cid := by
    have : r ∈ queryByStripeId t cid := by simp [hq]
    have := List.of_mem_filter this
    simpa using this
  induction t with
  | nil => simp [queryByStripeId] at hq
  | cons x xs ih =>
    by_cases hxu : x.userId = rec.userId
    · have hxr : x = r := huniq x (by simp) (hxu.trans hrecu)
      have hxm : x.stripeCustomerId = some cid := hxr ▸ hrmatch
      have h2 := hq
      simp [queryByStripeId, List.filter_cons, hxm] at h2
      simp [putRecord, hxu, queryByStripeId, List.filter_cons, hrecc]
      exact h2.2
    · have hxr : x ≠ r := fun hxeq => hxu (by rw [hxeq, hrecu])
      have hxm : ¬ x.stripeCustomerId = some cid := by
        intro hm
        have := hq
        simp only [queryByStripeId, List.filter_cons, hm] at this
        simp at this
        exact hxr this.1
      have hxs : queryByStripeId xs cid = [r] := by
        have := hq
        simpa [queryByStripeId, List.filter_cons, hxm] using this
      have ihx := ih hxs (fun y hy hyu => huniq y (by simp [hy]) hyu)
      simp [putRecord, hxu, queryByStripeId, List.filter_cons, hxm] at ihx ⊢
      exact ihx

/-! ## Concrete fixtures -/

/-- A provider that lists zero subscriptions and a put that succeeds. -/
def envOkEmpty : SyncEnv :=
  { listSubscriptions := fun _ => .ok [], putResult := .ok () }

/-- A provider whose subscription listing throws. -/
def envUpstreamFail : SyncEnv :=
  { listSubscriptions := fun _ => .error "stripe is down", putResult := .ok () }

/-- A directory record as Checkout Initiation would have created it,
later enriched by a past reconciliation with snapshot fields. -/
def recU1 : CustomerRecord :=
  { userId := "u1"
    stripeCustomerId := some "cus_1"
    email := some "a@b.c"
    createdAt := some "2024-01-01T00:00:00Z"
    subscriptionId := some "sub_old"
    status := some "active"
    priceId := some "price_old" }

/-- The reconciler payload carrying the billing-customer id of `recU1`. -/
def payloadCus1 : SyncPayload := { stripeCustomerId := some "cus_1" }

/-- A payload with neither identifier. -/
def emptyPayload : SyncPayload := {}

/-- A directory record for the webhook fixture customer. -/
def recU123 : CustomerRecord :=
  { userId := "u123", stripeCustomerId := some "cus_123" }

/-- A subscription whose line-item list is empty. -/
def subNoItems : StripeSubscription :=
  { id := "sub_1"
    status := "active"
    items := []
    current_period_start := 0
    current_period_end := 0
    cancel_at_period_end := false
    default_payment_method := .absent }

/-- A provider that lists exactly `subNoItems`. -/
def envOneSubNoItems : SyncEnv :=
  { listSubscriptions := fun _ => .ok [subNoItems], putResult := .ok () }

/-- The directory state for the Post-checkout Sync Trigger fixture: the
authenticated user `user-1` owns billing customer `cus_9`. -/
def tableC6 : CustomerTable :=
  [{ userId := "user-1", stripeCustomerId := some "cus_9" }]

/-! ## Claims -/

/-- **C1** (code bug). For the allowed event `customer.subscription.updated`
carrying the string customer id `cus_123`, Webhook Ingestion dispatches the
payload `{"customerId": "cus_123"}` (webhook.ts lines 69-75) — but the
Reconciler reads the field `stripeCustomerId` (sync-stripe-data.ts lines
18-20, 45), which parses to `undefined` from that payload; so even with a
matching directory record present, the triggered reconciliation fails
validation with "Customer ID is required" instead of operating on the
customer, contradicting the declared `Handler<SyncStripeEvent, _>` contract
of the sync function. -/
theorem webhook_dispatch_field_mismatch :
    (webhookHandler (some "sig")
        (.ok { type := "customer.subscription.updated",
               customer := some "cus_123" })).dispatched
      = some [("customerId", "cus_123")] ∧
    (parseSyncPayload [("customerId", "cus_123")]).stripeCustomerId = none ∧
    (syncHandler envOkEmpty [recU123]
        (parseSyncPayload [("customerId", "cus_123")]) "T").1
      = { success := false, error := some "Customer ID is required" } ∧
    (syncHandler envOkEmpty [recU123]
        (parseSyncPayload [("customerId", "cus_123")]) "T").2 = [recU123] := by
  decide

/-- **C2** (counterexample). On the input with neither identifier the
Reconciler does fail — but its response is `{ success: false, error:
"Customer ID is required" }` and carries no caller-facing status code at
all, not the 400 the claim requires (the `LambdaResponse` type has no
status-code field). -/
theorem sync_no_status_code_counterexample :
    (syncHandler envOkEmpty [recU1] emptyPayload "T").1.success = false ∧
    (syncHandler envOkEmpty [recU1] emptyPayload "T").1.error
      = some "Customer ID is required" ∧
    ¬ ((syncHandler envOkEmpty [recU1] emptyPayload "T").1.statusCode
        = some 400) := by
  decide

/-- **C2** (amended). The Reconciler returns no status codes: every response
carries no status code; every failure is caught and returned as `{ success:
false, error: message }` with the failure class distinguishable only by the
message — in particular an upstream listing failure is returned with the
thrown message, not classified as a 502 — and every success carries the
snapshot. No exception escapes the handler. -/
theorem sync_uniform_failure_envelope (env : SyncEnv) (table : CustomerTable)
    (ev : SyncPayload) (now : String) :
    ((syncHandler env table ev now).1.statusCode = none) ∧
    ((syncHandler env table ev now).1.success = false →
      (syncHandler env table ev now).1.data = none ∧
      ((syncHandler env table ev now).1.error).isSome = true) ∧
    ((syncHandler env table ev now).1.success = true →
      (syncHandler env table ev now).1.error = none ∧
      ((syncHandler env table ev now).1.data).isSome = true) ∧
    (∀ cid r rest m, ev.stripeCustomerId = some cid → cid ≠ "" →
      queryByStripeId table cid = r :: rest → r.userId ≠ "" →
      env.listSubscriptions cid = .error m →
      (syncHandler env table ev now).1
        = { success := false, error := some m }) := by
  refine ⟨rfl, ?_, ?_, ?_⟩
  · intro h
    cases hr : syncHandlerRun env table ev now with
    | error m => simp [syncHandler, hr]
    | ok v => simp [syncHandler, hr] at h
  · intro h
    cases hr : syncHandlerRun env table ev now with
    | error m => simp [syncHandler, hr] at h
    | ok v => simp [syncHandler, hr]
  · intro cid r rest m hev hcid hq hu hls
    simp [syncHandler, syncHandlerRun, hev, hcid, hq, hu, hls]

/-- **C2** (witness for the amended claim): the validation failure is
returned with no snapshot and an error message. -/
theorem sync_uniform_failure_envelope_witness :
    (syncHandler envOkEmpty [recU1] emptyPayload "T").1.data = none ∧
    ((syncHandler envOkEmpty [recU1] emptyPayload "T").1.error).isSome = true :=
  (sync_uniform_failure_envelope envOkEmpty [recU1] emptyPayload "T").2.1
    (by decide)

/-- **C4** (code bug). The record `recU1` was created with `email` and
`createdAt` set; a successful reconciliation (provider returns zero
subscriptions) persists a put item carrying neither attribute
(sync-stripe-data.ts lines 118-126 write only `userId`, `stripeCustomerId`,
the snapshot spread and `updatedAt`), and the full-item `PutCommand`
replaces the stored record wholesale — so `email` and `createdAt` are
erased, not preserved as the claim states. -/
theorem sync_put_erases_email_createdAt :
    recU1.email = some "a@b.c" ∧
    recU1.createdAt = some "2024-01-01T00:00:00Z" ∧
    (syncHandler envOkEmpty [recU1] payloadCus1 "T2").1.success = true ∧
    ((syncHandler envOkEmpty [recU1] payloadCus1 "T2").2.find?
      (fun x => x.userId == "u1")).map (·.email) = some none ∧
    ((syncHandler envOkEmpty [recU1] payloadCus1 "T2").2.find?
      (fun x => x.userId == "u1")).map (·.createdAt) = some none := by
  decide

/-- **C5** (counterexample). A payload carrying only `userId` — for a user
whose directory record exists and has a `stripeCustomerId` — is not
accepted: the handler destructures only `stripeCustomerId`
(sync-stripe-data.ts lines 18-20, 45-50), finds it `undefined`, and fails
with the validation error, leaving the table untouched; the claim predicted
it would resolve the record by primary key and proceed. -/
theorem sync_userId_only_rejected :
    (parseSyncPayload [("userId", "u1")]).userId = some "u1" ∧
    (syncHandler envOkEmpty [recU1]
        (parseSyncPayload [("userId", "u1")]) "T").1
      = { success := false, error := some "Customer ID is required" } ∧
    (syncHandler envOkEmpty [recU1]
        (parseSyncPayload [("userId", "u1")]) "T").2 = [recU1] := by
  decide

/-- **C5** (amended). The Reconciler accepts only `stripeCustomerId`: any
payload without one (whether or not it carries a `userId`) fails with the
validation error "Customer ID is required"; with one present, the record is
resolved by reverse lookup on the secondary index, failing with "No user
found for this Stripe customer" when no record matches. -/
theorem sync_requires_stripeCustomerId (env : SyncEnv) (table : CustomerTable)
    (ev : SyncPayload) (now : String) :
    (ev.stripeCustomerId = none →
      syncHandler env table ev now
        = ({ success := false, error := some "Customer ID is required" },
            table)) ∧
    (∀ cid, ev.stripeCustomerId = some cid → cid ≠ "" →
      queryByStripeId table cid = [] →
      syncHandler env table ev now
        = ({ success := false,
             error := some "No user found for this Stripe customer" },
            table)) := by
  constructor
  · intro h
    simp [syncHandler, syncHandlerRun, h]
  · intro cid hev hcid hq
    simp [syncHandler, syncHandlerRun, hev, hcid, hq]

/-- **C5** (witness for the amended claim): with an unknown billing-customer
id and an empty table, the Reconciler reports the not-found message. -/
theorem sync_requires_stripeCustomerId_witness :
    syncHandler envOkEmpty [] payloadCus1 "T"
      = ({ success := false,
           error := some "No user found for this Stripe customer" }, []) :=
  (sync_requires_stripeCustomerId envOkEmpty [] payloadCus1 "T").2
    "cus_1" rfl (by decide) rfl

/-- **C6** (code bug). With the directory holding `user-1 ↦ cus_9`: variant
A (`src/success/success-stripe-sync.ts`) sends the Reconciler the payload
`{"stripeCustomerId": "user-1"}` — the raw Cognito user id, not the
looked-up billing-customer id, despite its own comment saying it fetches the
id from DynamoDB — so reconciliation fails; and both variants return their
own HTTP status 200 around a failed Reconciler response (variant B looks the
id up correctly but relays an upstream failure inside a 200 body, and the
relayed body carries no status code to surface). -/
theorem success_sync_wrong_id_and_status :
    (successSyncA envOkEmpty tableC6
        (some { sub := "user-1", email := "e@x.com" }) "T").1.invokedPayload
      = some [("stripeCustomerId", "user-1")] ∧
    (successSyncA envOkEmpty tableC6
        (some { sub := "user-1", email := "e@x.com" }) "T").1.statusCode = 200 ∧
    (successSyncA envOkEmpty tableC6
        (some { sub := "user-1", email := "e@x.com" }) "T").1.body
      = some { success := false,
               error := some "No user found for this Stripe customer" } ∧
    (successSyncB envUpstreamFail tableC6
        (some { sub := "user-1", email := "e@x.com" }) "T").1.invokedPayload
      = some [("stripeCustomerId", "cus_9")] ∧
    (successSyncB envUpstreamFail tableC6
        (some { sub := "user-1", email := "e@x.com" }) "T").1.statusCode = 200 ∧
    (successSyncB envUpstreamFail tableC6
        (some { sub := "user-1", email := "e@x.com" }) "T").1.body
      = some { success := false, error := some "stripe is down" } := by
  decide

/-- The equation of a fully successful Reconciler run: identifier present,
record resolved, listing obtained, snapshot normalized, put applied. -/
theorem syncHandler_ok (env : SyncEnv) (table : CustomerTable)
    (ev : SyncPayload) (now cid : String) (r : CustomerRecord)
    (sd : StripeSubscriptionData) (subs : List StripeSubscription)
    (hev : ev.stripeCustomerId = some cid) (hcid : cid ≠ "")
    (hq : (queryByStripeId table cid).head? = some r) (hu : r.userId ≠ "")
    (hls : env.listSubscriptions cid = .ok subs)
    (hsd : computeSubData subs = .ok sd)
    (hput : env.putResult = .ok ()) :
    syncHandler env table ev now
      = ({ success := true, data := some sd },
          putRecord table (storedRecord r.userId cid sd now)) := by
  simp [syncHandler, syncHandlerRun, hev, hcid, hq, hu, hls, hsd, hput]

/-- **C3** (confirmed). When the provider returns zero subscriptions for a
resolved customer, the Reconciler returns the "none" snapshot and persists a
put item whose snapshot attributes are all cleared (`subscriptionId`,
`priceId`, period bounds and `paymentMethod` null, `status = "none"`,
`cancelAtPeriodEnd = false`); the `PutCommand` replaces the stored item
wholesale, so the record found under the key afterwards is exactly that item
and no snapshot field of a previous reconciliation survives. -/
theorem sync_zero_subscriptions_clears_snapshot (env : SyncEnv)
    (table : CustomerTable) (ev : SyncPayload) (now cid : String)
    (r : CustomerRecord) (rest : List CustomerRecord)
    (hev : ev.stripeCustomerId = some cid) (hcid : cid ≠ "")
    (hq : queryByStripeId table cid = r :: rest) (hu : r.userId ≠ "")
    (hls : env.listSubscriptions cid = .ok [])
    (hput : env.putResult = .ok ()) :
    syncHandler env table ev now
      = ({ success := true, data := some noneSubData },
          putRecord table (storedRecord r.userId cid noneSubData now)) ∧
    (putRecord table (storedRecord r.userId cid noneSubData now)).find?
        (fun x => x.userId == r.userId)
      = some (storedRecord r.userId cid noneSubData now) ∧
    (storedRecord r.userId cid noneSubData now).subscriptionId = none ∧
    (storedRecord r.userId cid noneSubData now).priceId = none ∧
    (storedRecord r.userId cid noneSubData now).status = some "none" ∧
    (storedRecord r.userId cid noneSubData now).currentPeriodStart = none ∧
    (storedRecord r.userId cid noneSubData now).currentPeriodEnd = none ∧
    (storedRecord r.userId cid noneSubData now).paymentMethod = none ∧
    (storedRecord r.userId cid noneSubData now).cancelAtPeriodEnd = some false := by
  refine ⟨?_, ?_, rfl, rfl, rfl, rfl, rfl, rfl, rfl⟩
  · exact syncHandler_ok env table ev now cid r noneSubData [] hev hcid
      (by rw [hq]; rfl) hu hls rfl hput
  · exact find?_putRecord table (storedRecord r.userId cid noneSubData now)

/-- **C3** (witness): on `recU1` — which still holds a stale `priceId` and
`subscriptionId` from a past reconciliation — a zero-subscription sync
stores the fully cleared item. -/
theorem sync_zero_subscriptions_clears_snapshot_witness :
    syncHandler envOkEmpty [recU1] payloadCus1 "T"
      = ({ success := true, data := some noneSubData },
          putRecord [recU1] (storedRecord recU1.userId "cus_1" noneSubData "T")) :=
  (sync_zero_subscriptions_clears_snapshot envOkEmpty [recU1] payloadCus1 "T"
    "cus_1" recU1 [] rfl (by decide) rfl (by decide) rfl rfl).1

/-- **C7** (confirmed). With the directory and the provider listing fixed,
running the Reconciler twice in succession on the same `stripeCustomerId`
yields the same response both times (the normalization is a deterministic
function of the listing), and the two persisted items differ only in
`updatedAt`. -/
theorem sync_reconciliation_deterministic (env : SyncEnv)
    (table : CustomerTable) (ev : SyncPayload) (now1 now2 cid : String)
    (r : CustomerRecord) (sd : StripeSubscriptionData)
    (subs : List StripeSubscription)
    (hev : ev.stripeCustomerId = some cid) (hcid : cid ≠ "")
    (hq : queryByStripeId table cid = [r])
    (huniq : ∀ x ∈ table, x.userId = r.userId → x = r)
    (hu : r.userId ≠ "")
    (hls : env.listSubscriptions cid = .ok subs)
    (hsd : computeSubData subs = .ok sd)
    (hput : env.putResult = .ok ()) :
    syncHandler env table ev now1
      = ({ success := true, data := some sd },
          putRecord table (storedRecord r.userId cid sd now1)) ∧
    syncHandler env (syncHandler env table ev now1).2 ev now2
      = ({ success := true, data := some sd },
          putRecord (syncHandler env table ev now1).2
            (storedRecord r.userId cid sd now2)) ∧
    (syncHandler env (syncHandler env table ev now1).2 ev now2).1
      = (syncHandler env table ev now1).1 ∧
    storedRecord r.userId cid sd now2
      = { storedRecord r.userId cid sd now1 with updatedAt := some now2 } := by
  have e1 : syncHandler env table ev now1
      = ({ success := true, data := some sd },
          putRecord table (storedRecord r.userId cid sd now1)) :=
    syncHandler_ok env table ev now1 cid r sd subs hev hcid
      (by rw [hq]; rfl) hu hls hsd hput
  have hq2 : queryByStripeId (putRecord table (storedRecord r.userId cid sd now1)) cid
      = [storedRecord r.userId cid sd now1] :=
    queryByStripeId_putRecord table r (storedRecord r.userId cid sd now1) cid
      hq huniq rfl rfl
  have e2 : syncHandler env (putRecord table (storedRecord r.userId cid sd now1)) ev now2
      = ({ success := true, data := some sd },
          putRecord (putRecord table (storedRecord r.userId cid sd now1))
            (storedRecord r.userId cid sd now2)) :=
    syncHandler_ok env (putRecord table (storedRecord r.userId cid sd now1))
      ev now2 cid (storedRecord r.userId cid sd now1) sd subs hev hcid
      (by rw [hq2]; rfl) hu hls hsd hput
  refine ⟨e1, ?_, ?_, rfl⟩
  · rw [e1]
    exact e2
  · rw [e1]
    rw [show (({ success := true, data := some sd },
        putRecord table (storedRecord r.userId cid sd now1)) :
        LambdaResponse × CustomerTable).2
      = putRecord table (storedRecord r.userId cid sd now1) from rfl]
    rw [e2]

/-- **C7** (witness): two successive zero-subscription syncs on the same
customer return the same response. -/
theorem sync_reconciliation_deterministic_witness :
    (syncHandler envOkEmpty
        (syncHandler envOkEmpty [recU1] payloadCus1 "T1").2 payloadCus1 "T2").1
      = (syncHandler envOkEmpty [recU1] payloadCus1 "T1").1 :=
  (sync_reconciliation_deterministic envOkEmpty [recU1] payloadCus1 "T1" "T2"
    "cus_1" recU1 noneSubData [] rfl (by decide) rfl (by decide) (by decide)
    rfl rfl rfl).2.2.1

/-- **C9** (confirmed). Whenever the Reconciler returns a failure result
(`success = false`), the customer table is unchanged by that invocation:
every failure exit — missing identifier, no reverse-index match, provider
listing failure, put failure — leaves the table as it was, the single
atomic put being the only write. -/
theorem sync_failure_leaves_table_unchanged (env : SyncEnv)
    (table : CustomerTable) (ev : SyncPayload) (now : String)
    (h : (syncHandler env table ev now).1.success = false) :
    (syncHandler env table ev now).2 = table := by
  cases hr : syncHandlerRun env table ev now with
  | error m => simp [syncHandler, hr]
  | ok v => simp [syncHandler, hr] at h

/-- **C9** (witness): a validation failure leaves the table unchanged. -/
theorem sync_failure_leaves_table_unchanged_witness :
    (syncHandler envOkEmpty [recU1] emptyPayload "T").1.success = false ∧
    (syncHandler envOkEmpty [recU1] emptyPayload "T").2 = [recU1] :=
  ⟨by decide,
    sync_failure_leaves_table_unchanged envOkEmpty [recU1] emptyPayload "T"
      (by decide)⟩

/-- **C10** (confirmed). When the provider returns at least one
subscription, the handler reads `subscriptions.data[0].items.data[0].price.id`
without guarding for emptiness: with zero line items the read throws and the
invocation returns a failure result with the table untouched, so a
successful snapshot is only produced when the line-item list of the first
subscription is non-empty. -/
theorem sync_empty_line_items_fails (env : SyncEnv) (table : CustomerTable)
    (ev : SyncPayload) (now cid : String) (r : CustomerRecord)
    (rest : List CustomerRecord) (sub : StripeSubscription)
    (more : List StripeSubscription)
    (hev : ev.stripeCustomerId = some cid) (hcid : cid ≠ "")
    (hq : queryByStripeId table cid = r :: rest) (hu : r.userId ≠ "")
    (hls : env.listSubscriptions cid = .ok (sub :: more)) :
    (sub.items = [] →
      syncHandler env table ev now
        = ({ success := false,
             error := some
               "TypeError: Cannot read properties of undefined (reading price)" },
            table)) ∧
    ((syncHandler env table ev now).1.success = true → sub.items ≠ []) := by
  have hfail : sub.items = [] →
      syncHandler env table ev now
        = ({ success := false,
             error := some
               "TypeError: Cannot read properties of undefined (reading price)" },
            table) := by
    intro h
    simp [syncHandler, syncHandlerRun, hev, hcid, hq, hu, hls,
      computeSubData, h]
  refine ⟨hfail, ?_⟩
  intro hs hitems
  rw [hfail hitems] at hs
  simp at hs

/-- **C10** (witness): a single subscription with an empty line-item list
makes the sync fail and leaves the table unchanged. -/
theorem sync_empty_line_items_fails_witness :
    syncHandler envOneSubNoItems [recU1] payloadCus1 "T"
      = ({ success := false,
           error := some
             "TypeError: Cannot read properties of undefined (reading price)" },
          [recU1]) :=
  (sync_empty_line_items_fails envOneSubNoItems [recU1] payloadCus1 "T"
    "cus_1" recU1 [] subNoItems [] rfl (by decide) rfl (by decide) rfl).1 rfl

/-- The record Checkout Initiation writes for a new customer
(create-checkout.ts lines 79-87). -/
def checkoutRecordOf (u e c1 now : String) : CustomerRecord :=
  { userId := u, stripeCustomerId := some c1, email := some e,
    createdAt := some now }

/-- **C8** (confirmed). For an authenticated user with no existing Customer
Record, two sequential successful Checkout Initiation calls create exactly
one billing-provider customer and exactly one directory record in total:
the first call creates both, the second finds the stored `stripeCustomerId`,
creates nothing, writes nothing, and only opens a second checkout session
for the same reused customer id. -/
theorem checkout_twice_creates_one_customer (env : CheckoutEnv)
    (st0 : CheckoutState) (u e now1 now2 c1 : String) (url0 : Option String)
    (hu : u ≠ "") (he : e ≠ "")
    (hget : env.getFails = false)
    (hnone : ∀ x ∈ st0.table, x.userId ≠ u)
    (hcc : st0.createdCustomers = [])
    (hcreate : env.createCustomer 0 = .ok c1) (hc1 : c1 ≠ "")
    (hput : env.putResult = .ok ())
    (hsess : env.createSession c1 = .ok url0) :
    (checkoutHandler env st0 (some ⟨u, e⟩) now1).1.statusCode = 200 ∧
    (checkoutHandler env st0 (some ⟨u, e⟩) now1).2.createdCustomers = [c1] ∧
    (checkoutHandler env st0 (some ⟨u, e⟩) now1).2.table
      = st0.table ++ [checkoutRecordOf u e c1 now1] ∧
    (checkoutHandler env (checkoutHandler env st0 (some ⟨u, e⟩) now1).2
        (some ⟨u, e⟩) now2).1.statusCode = 200 ∧
    (checkoutHandler env (checkoutHandler env st0 (some ⟨u, e⟩) now1).2
        (some ⟨u, e⟩) now2).2.createdCustomers = [c1] ∧
    (checkoutHandler env (checkoutHandler env st0 (some ⟨u, e⟩) now1).2
        (some ⟨u, e⟩) now2).2.table
      = (checkoutHandler env st0 (some ⟨u, e⟩) now1).2.table ∧
    (checkoutHandler env (checkoutHandler env st0 (some ⟨u, e⟩) now1).2
        (some ⟨u, e⟩) now2).2.sessions = st0.sessions ++ [c1, c1] ∧
    ((checkoutHandler env (checkoutHandler env st0 (some ⟨u, e⟩) now1).2
        (some ⟨u, e⟩) now2).2.table.countP (fun x => x.userId == u)) = 1 := by
  have hfind : st0.table.find? (fun x => x.userId == u) = none :=
    List.find?_eq_none.mpr (fun x hx => by simpa using hnone x hx)
  have hputrec : putRecord st0.table (checkoutRecordOf u e c1 now1)
      = st0.table ++ [checkoutRecordOf u e c1 now1] :=
    putRecord_of_not_mem st0.table (checkoutRecordOf u e c1 now1)
      (fun x hx => hnone x hx)
  have e1 : checkoutHandler env st0 (some ⟨u, e⟩) now1
      = ({ statusCode := 200, url := url0 },
          { table := putRecord st0.table (checkoutRecordOf u e c1 now1)
            createdCustomers := [c1]
            sessions := st0.sessions ++ [c1] }) := by
    simp [checkoutHandler, checkoutCreatePath, checkoutFinish,
      checkoutRecordOf, hu, he, hget, hfind, hcc, hcreate, hput, hsess]
  have hfind2 : (putRecord st0.table (checkoutRecordOf u e c1 now1)).find?
      (fun x => x.userId == u) = some (checkoutRecordOf u e c1 now1) :=
    find?_putRecord st0.table (checkoutRecordOf u e c1 now1)
  have hproj : (checkoutRecordOf u e c1 now1).stripeCustomerId = some c1 := rfl
  have e2 : checkoutHandler env
      ({ table := putRecord st0.table (checkoutRecordOf u e c1 now1)
         createdCustomers := [c1]
         sessions := st0.sessions ++ [c1] } : CheckoutState)
      (some ⟨u, e⟩) now2
      = ({ statusCode := 200, url := url0 },
          { table := putRecord st0.table (checkoutRecordOf u e c1 now1)
            createdCustomers := [c1]
            sessions := st0.sessions ++ [c1, c1] }) := by
    simp [checkoutHandler, checkoutFinish, hu, he, hget, hfind2, hproj,
      hc1, hsess]
  have hcount : (putRecord st0.table (checkoutRecordOf u e c1 now1)).countP
      (fun x => x.userId == u) = 1 := by
    rw [hputrec, List.countP_append]
    have h0 : st0.table.countP (fun x => x.userId == u) = 0 :=
      List.countP_eq_zero.mpr (fun x hx => by simpa using hnone x hx)
    simp [h0, List.countP_cons, checkoutRecordOf]
  rw [e1]
  rw [e2]
  exact ⟨rfl, rfl, hputrec, rfl, rfl, rfl, rfl, hcount⟩

/-- A checkout environment in which every external call succeeds. -/
def envCheckoutOk : CheckoutEnv :=
  { getFails := false
    createCustomer := fun _ => .ok "cus_new"
    putResult := .ok ()
    createSession := fun _ => .ok (some "https://pay.example/s1") }

/-- **C8** (witness): starting from an empty directory, after two calls the
provider-side customer list is exactly one id. -/
theorem checkout_twice_creates_one_customer_witness :
    (checkoutHandler envCheckoutOk
        (checkoutHandler envCheckoutOk { table := [] }
          (some ⟨"u9", "e@x.com"⟩) "N1").2
        (some ⟨"u9", "e@x.com"⟩) "N2").2.createdCustomers = ["cus_new"] :=
  (checkout_twice_creates_one_customer envCheckoutOk { table := [] }
    "u9" "e@x.com" "N1" "N2" "cus_new" (some "https://pay.example/s1")
    (by decide) (by decide) rfl (by intro x hx; simp at hx) rfl rfl
    (by decide) rfl rfl).2.2.2.2.1

end StripeAws
